import Mathlib

/-!
Verification development for the ct-to-slack batch handler
(src/ct_to_slack.go).  The handler consumes an S3 event, filters keys by a
fixed path prefix, loads and decodes each CT leaf entry, reconstructs the
embedded X.509 certificate, formats a Slack message and posts it.  We embed
the handler as a pure function over an environment of external collaborators
(object store, parameter store, JSON decoding, certificate parsing, webhook
transport), recording the observable effects (fetches, posts, logs) in a
trace.
-/

/-- The bucket component of an S3 event record (rec.S3.Bucket). -/
structure S3Bucket where
  name : String
deriving DecidableEq

/-- The object component of an S3 event record (rec.S3.Object). -/
structure S3Object where
  key : String
deriving DecidableEq

/-- The S3 entity of an event record (rec.S3). -/
structure S3Entity where
  bucket : S3Bucket
  object : S3Object
deriving DecidableEq

/-- One record of an S3 event (events.S3EventRecord). -/
structure S3EventRecord where
  s3 : S3Entity
deriving DecidableEq

/-- An S3 event: the ordered batch of records (events.S3Event). -/
structure S3Event where
  records : List S3EventRecord
deriving DecidableEq

/-- A decoded CT leaf entry (ct.LeafEntry): the JSON-decoded wrapper holding
the leaf input and extra data bytes. -/
structure LeafEntry where
  leafInput : List Nat
  extraData : List Nat
deriving DecidableEq

/-- The log entry reconstructed by ct.LogEntryFromLeaf; the handler only
inspects whether it carries an embedded X.509 certificate, and if so uses the
raw DER bytes (logEntry.X509Cert.Raw). -/
structure LogEntry where
  x509Cert : Option (List Nat)
deriving DecidableEq

/-- A UTC timestamp with second precision, as used by the certificate
validity fields. -/
structure Time where
  year : Nat
  month : Nat
  day : Nat
  hour : Nat
  minute : Nat
  second : Nat
deriving DecidableEq

/-- The fields of a parsed X.509 certificate the handler reads:
cert.DNSNames (SAN DNS entries in encoding order), cert.NotBefore,
cert.NotAfter. -/
structure Certificate where
  dnsNames : List String
  notBefore : Time
  notAfter : Time
deriving DecidableEq

/-- The external collaborators of the handler, as result-returning
functions: AWS config loading, SSM parameter lookup, URL path unescaping,
S3 GetObject, JSON decoding of the leaf entry, ct.LogEntryFromLeaf,
x509.ParseCertificate, certinfo.CertificateText, slack.PostWebhook. -/
structure Env where
  loadConfig : Except String Unit
  getWebhookURL : Except String String
  pathUnescape : String → Except String String
  getObject : String → String → Except String (List Nat)
  decodeLeaf : List Nat → Except String LeafEntry
  logEntryFromLeaf : LeafEntry → Except String LogEntry
  parseCertificate : List Nat → Except String Certificate
  certificateText : Certificate → Except String String
  postWebhook : String → String → Except String Unit

/-- The observable effects of one handler invocation: S3 GetObject calls
as (bucket, key) pairs, webhook posts as (url, text) pairs, and the log
event names emitted, each in order. -/
structure Trace where
  fetches : List (String × String)
  posts : List (String × String)
  logs : List String
deriving DecidableEq

def Trace.empty : Trace := ⟨[], [], []⟩

def Trace.log (t : Trace) (m : String) : Trace :=
  { t with logs := t.logs ++ [m] }

def Trace.addFetch (t : Trace) (b k : String) : Trace :=
  { t with fetches := t.fetches ++ [(b, k)] }

def Trace.addPost (t : Trace) (u m : String) : Trace :=
  { t with posts := t.posts ++ [(u, m)] }

/-- The fixed key prefix (variable prefix = "certs/" in the source). -/
def prefixVal : String := "certs/"

/-- Go time.RFC3339 zero-padding of a two-digit field. -/
def pad2 (n : Nat) : String :=
  if n < 10 then "0" ++ toString n else toString n

/-- Go time.RFC3339 zero-padding of the year field. -/
def pad4 (n : Nat) : String :=
  if n < 10 then "000" ++ toString n
  else if n < 100 then "00" ++ toString n
  else if n < 1000 then "0" ++ toString n
  else toString n

/-- Rendering of a UTC time in RFC3339 format, as produced by Go
t.Format(time.RFC3339) for a UTC time. -/
def formatRFC3339 (t : Time) : String :=
  pad4 t.year ++ "-" ++ pad2 t.month ++ "-" ++ pad2 t.day ++ "T" ++
    pad2 t.hour ++ ":" ++ pad2 t.minute ++ ":" ++ pad2 t.second ++ "Z"

/-- The message template of the handler (the fmt.Sprintf at lines 106-117):
title, key, comma-space-joined DNS names, validity window in RFC3339, and
the fenced certificate text block. -/
def formatMessage (key : String) (cert : Certificate) (certInfoTxt : String) : String :=
  "*New Certificate Detected*\n\n*Key:* " ++ key ++ "\n" ++
  "*DNS Names:* " ++ String.intercalate ", " cert.dnsNames ++ "\n" ++
  "*Not Before:* " ++ formatRFC3339 cert.notBefore ++ "\n" ++
  "*Not After:* " ++ formatRFC3339 cert.notAfter ++ "\n\n" ++
  "*Certificate Details:*\n```" ++ certInfoTxt ++ "```"

/-- pat is matched at the head of s. -/
def charsStartWith : List Char → List Char → Bool
  | [], _ => true
  | _ :: _, [] => false
  | p :: ps, c :: cs => p == c && charsStartWith ps cs

/-- Go strings.HasPrefix: s begins with pre. -/
def strStarts (s pre : String) : Bool :=
  charsStartWith pre.data s.data

/-- pat occurs somewhere in s. -/
def charsContain : List Char → List Char → Bool
  | pat, [] => charsStartWith pat []
  | pat, c :: rest => charsStartWith pat (c :: rest) || charsContain pat rest

/-- Decidable substring containment over strings. -/
def strContains (s pat : String) : Bool :=
  charsContain pat.data s.data

/-- Control outcome of processing one record: continue with the next record,
return an error from the handler, or return nil from the handler. -/
inductive Control where
  | next : Control
  | stopErr : String → Control
  | stopNil : Control
deriving DecidableEq

/-- The body of the loop over evt.Records (lines 52-125): prefix filter,
key unescaping, object fetch, JSON decode, log-entry reconstruction,
certificate parse, certificate text, message formatting and webhook post,
with the control flow (continue / return err / return nil) of the source. -/
def processRecord (env : Env) (url : String) (r : S3EventRecord) (t : Trace) :
    Trace × Control :=
  let key := r.s3.object.key
  if strStarts key prefixVal then
    match env.pathUnescape key with
    | .error e => (t, .stopErr e)
    | .ok key2 =>
      let t1 := t.addFetch r.s3.bucket.name key2
      match env.getObject r.s3.bucket.name key2 with
      | .error e => (t1.log "get obj err", .stopErr e)
      | .ok bs =>
        match env.decodeLeaf bs with
        | .error e => (t1.log "decode json err", .stopErr e)
        | .ok leaf =>
          match env.logEntryFromLeaf leaf with
          | .error e => (t1.log "load log entry leaf err", .stopErr e)
          | .ok entry =>
            match entry.x509Cert with
            | none => (t1.log "expected x509 cert but got none", .stopNil)
            | some raw =>
              match env.parseCertificate raw with
              | .error e => (t1.log "x509 parse err", .stopErr e)
              | .ok cert =>
                match env.certificateText cert with
                | .error e => (t1.log "cert txt err", .stopErr e)
                | .ok txt =>
                  let msg := formatMessage key2 cert txt
                  let t2 := t1.addPost url msg
                  match env.postWebhook url msg with
                  | .error _ => (t2.log "slack_webhook_err", .next)
                  | .ok _ => (t2, .next)
  else
    (t.log "skipping_file_outside_prefix", .next)

/-- The loop over evt.Records: per-record processing threaded through the
trace, stopping early on a stopErr (return err) or stopNil (return nil). -/
def handlerLoop (env : Env) (url : String) :
    List S3EventRecord → Trace → Trace × Option String
  | [], t => (t, none)
  | r :: rest, t =>
    match processRecord env url r t with
    | (t1, .next) => handlerLoop env url rest t1
    | (t1, .stopErr e) => (t1, some e)
    | (t1, .stopNil) => (t1, none)

/-- The handler (func Handler, lines 33-128): load config, resolve the
webhook URL from SSM (logging and proceeding with the zero value on
failure), then run the loop over the records. -/
def Handler (env : Env) (evt : S3Event) : Trace × Option String :=
  match env.loadConfig with
  | .error e => (Trace.empty, some e)
  | .ok _ =>
    match env.getWebhookURL with
    | .error _ => handlerLoop env "" evt.records (Trace.empty.log "get_webhook_url_err")
    | .ok url => handlerLoop env url evt.records Trace.empty

/-- The extract-and-format pipeline of lines 83-117 on a decoded leaf entry:
log-entry reconstruction, certificate presence check, DER parse, certificate
text, message formatting.  Returns ok none for the no-certificate outcome. -/
def extractFormat (env : Env) (key : String) (rawEntry : LeafEntry) :
    Except String (Option String) :=
  match env.logEntryFromLeaf rawEntry with
  | .error e => .error e
  | .ok entry =>
    match entry.x509Cert with
    | none => .ok none
    | some raw =>
      match env.parseCertificate raw with
      | .error e => .error e
      | .ok cert =>
        match env.certificateText cert with
        | .error e => .error e
        | .ok txt => .ok (some (formatMessage key cert txt))

/-- A certificate with the DNS names and validity window of the §8 scenario. -/
def certAB : Certificate :=
  { dnsNames := ["a.example.com", "b.example.com"]
    notBefore := ⟨2024, 1, 1, 0, 0, 0⟩
    notAfter := ⟨2025, 1, 1, 0, 0, 0⟩ }

/-- An environment in which every collaborator succeeds and every decoded
leaf entry embeds a certificate parsing to certAB.  Path unescaping maps the
escaped key to its unescaped form and is the identity elsewhere. -/
def envFull : Env :=
  { loadConfig := .ok ()
    getWebhookURL := .ok "https://hooks.example/T"
    pathUnescape := fun k =>
      if k = "certs%2Fabc.json" then .ok "certs/abc.json" else .ok k
    getObject := fun _ _ => .ok [1]
    decodeLeaf := fun _ => .ok ⟨[1], []⟩
    logEntryFromLeaf := fun _ => .ok ⟨some [2]⟩
    parseCertificate := fun _ => .ok certAB
    certificateText := fun _ => .ok "Certificate: data"
    postWebhook := fun _ _ => .ok () }

/-- Like envFull, but every decoded leaf entry reconstructs to a log entry
with no embedded X.509 certificate. -/
def envNoCert : Env :=
  { envFull with logEntryFromLeaf := fun _ => .ok ⟨none⟩ }

/-- Like envFull, but JSON decoding of the leaf entry fails. -/
def envDecodeErr : Env :=
  { envFull with decodeLeaf := fun _ => .error "bad json" }

/-- Like envFull, but the webhook post fails. -/
def envPostErr : Env :=
  { envFull with postWebhook := fun _ _ => .error "slack down" }

/-- Like envFull, but the webhook URL lookup fails. -/
def envNoURL : Env :=
  { envFull with getWebhookURL := .error "ssm down" }

/-- If a record passes the prefix filter, unescapes, fetches and decodes
successfully, but the reconstructed log entry has no embedded certificate,
then the record's processing logs the no-certificate event and returns nil
from the handler (Control.stopNil). -/
theorem processRecord_noCert (env : Env) (url : String) (r : S3EventRecord)
    (t : Trace) (k : String) (bs : List Nat) (leaf : LeafEntry)
    (h1 : strStarts r.s3.object.key prefixVal = true)
    (h2 : env.pathUnescape r.s3.object.key = Except.ok k)
    (h3 : env.getObject r.s3.bucket.name k = Except.ok bs)
    (h4 : env.decodeLeaf bs = Except.ok leaf)
    (h5 : env.logEntryFromLeaf leaf = Except.ok { x509Cert := none }) :
    processRecord env url r t =
      ((t.addFetch r.s3.bucket.name k).log "expected x509 cert but got none",
        Control.stopNil) := by
  simp [processRecord, h1, h2, h3, h4, h5]

/-- The two-record batch used to exhibit the no-certificate abort. -/
def evtTwo : S3Event :=
  ⟨[⟨⟨⟨"b"⟩, ⟨"certs/a"⟩⟩⟩, ⟨⟨⟨"b"⟩, ⟨"certs/b"⟩⟩⟩]⟩

/-- C1 counterexample: in a two-record batch whose first record decodes to a
log entry with no embedded certificate, the handler returns nil with no
posts, and the second record is never fetched — although the same second
record is fetched when it is the only record of the batch.  So processing of
subsequent keys does not proceed. -/
theorem C1_counterexample :
    (Handler envNoCert evtTwo).2 = none ∧
    (Handler envNoCert evtTwo).1.posts = [] ∧
    (Handler envNoCert evtTwo).1.fetches = [("b", "certs/a")] ∧
    (Handler envNoCert ⟨[⟨⟨⟨"b"⟩, ⟨"certs/b"⟩⟩⟩]⟩).1.fetches = [("b", "certs/b")] := by
  refine ⟨rfl, rfl, rfl, rfl⟩

/-- C1 (amended): for every batch position, when a record's decoded leaf
entry embeds no X.509 certificate, the handler produces no notification and
no error for that key, but returns nil immediately, so the subsequent
records of the batch are not processed: the loop result is independent of
the remaining records and adds no post. -/
theorem C1_amended (env : Env) (url : String) (r : S3EventRecord)
    (rest : List S3EventRecord) (t : Trace) (k : String) (bs : List Nat)
    (leaf : LeafEntry)
    (h1 : strStarts r.s3.object.key prefixVal = true)
    (h2 : env.pathUnescape r.s3.object.key = Except.ok k)
    (h3 : env.getObject r.s3.bucket.name k = Except.ok bs)
    (h4 : env.decodeLeaf bs = Except.ok leaf)
    (h5 : env.logEntryFromLeaf leaf = Except.ok { x509Cert := none }) :
    handlerLoop env url (r :: rest) t =
      ((t.addFetch r.s3.bucket.name k).log "expected x509 cert but got none",
        none) ∧
    ((t.addFetch r.s3.bucket.name k).log
        "expected x509 cert but got none").posts = t.posts := by
  constructor
  · simp [handlerLoop, processRecord_noCert env url r t k bs leaf h1 h2 h3 h4 h5]
  · simp [Trace.addFetch, Trace.log]

/-- C1 amended witness at a concrete environment and batch. -/
theorem C1_amended_witness :
    handlerLoop envNoCert "u" [⟨⟨⟨"b"⟩, ⟨"certs/a"⟩⟩⟩, ⟨⟨⟨"b"⟩, ⟨"certs/b"⟩⟩⟩]
        Trace.empty =
      ((Trace.empty.addFetch "b" "certs/a").log "expected x509 cert but got none",
        none) ∧
    ((Trace.empty.addFetch "b" "certs/a").log
        "expected x509 cert but got none").posts = Trace.empty.posts :=
  C1_amended envNoCert "u" ⟨⟨⟨"b"⟩, ⟨"certs/a"⟩⟩⟩ [⟨⟨⟨"b"⟩, ⟨"certs/b"⟩⟩⟩]
    Trace.empty "certs/a" [1] ⟨[1], []⟩ (by decide) rfl rfl rfl rfl

/-- C10: when any record's reconstructed log entry carries no embedded
X.509 certificate, the handler loop returns nil at that point: no posts are
added, the only new fetch is that record's own, and the result is the same
as if the subsequent records were absent from the batch. -/
theorem C10_noCert_returns_nil (env : Env) (url : String) (r : S3EventRecord)
    (rest : List S3EventRecord) (t : Trace) (k : String) (bs : List Nat)
    (leaf : LeafEntry)
    (h1 : strStarts r.s3.object.key prefixVal = true)
    (h2 : env.pathUnescape r.s3.object.key = Except.ok k)
    (h3 : env.getObject r.s3.bucket.name k = Except.ok bs)
    (h4 : env.decodeLeaf bs = Except.ok leaf)
    (h5 : env.logEntryFromLeaf leaf = Except.ok { x509Cert := none }) :
    (handlerLoop env url (r :: rest) t).2 = none ∧
    (handlerLoop env url (r :: rest) t).1.posts = t.posts ∧
    (handlerLoop env url (r :: rest) t).1.fetches =
      t.fetches ++ [(r.s3.bucket.name, k)] ∧
    handlerLoop env url (r :: rest) t = handlerLoop env url [r] t := by
  have hp := processRecord_noCert env url r t k bs leaf h1 h2 h3 h4 h5
  refine ⟨?_, ?_, ?_, ?_⟩ <;>
    simp [handlerLoop, hp, Trace.addFetch, Trace.log]

/-- C10 witness at a concrete environment and batch. -/
theorem C10_witness :
    (handlerLoop envNoCert "u" [⟨⟨⟨"b"⟩, ⟨"certs/a"⟩⟩⟩, ⟨⟨⟨"b"⟩, ⟨"certs/b"⟩⟩⟩]
        Trace.empty).2 = none ∧
    (handlerLoop envNoCert "u" [⟨⟨⟨"b"⟩, ⟨"certs/a"⟩⟩⟩, ⟨⟨⟨"b"⟩, ⟨"certs/b"⟩⟩⟩]
        Trace.empty).1.posts = Trace.empty.posts ∧
    (handlerLoop envNoCert "u" [⟨⟨⟨"b"⟩, ⟨"certs/a"⟩⟩⟩, ⟨⟨⟨"b"⟩, ⟨"certs/b"⟩⟩⟩]
        Trace.empty).1.fetches = Trace.empty.fetches ++ [("b", "certs/a")] ∧
    handlerLoop envNoCert "u" [⟨⟨⟨"b"⟩, ⟨"certs/a"⟩⟩⟩, ⟨⟨⟨"b"⟩, ⟨"certs/b"⟩⟩⟩]
        Trace.empty =
      handlerLoop envNoCert "u" [⟨⟨⟨"b"⟩, ⟨"certs/a"⟩⟩⟩] Trace.empty :=
  C10_noCert_returns_nil envNoCert "u" ⟨⟨⟨"b"⟩, ⟨"certs/a"⟩⟩⟩
    [⟨⟨⟨"b"⟩, ⟨"certs/b"⟩⟩⟩] Trace.empty "certs/a" [1] ⟨[1], []⟩
    (by decide) rfl rfl rfl rfl

/-- One of the fatal stages of record r fails with error e: key unescaping,
object retrieval, leaf-entry JSON decoding, log-entry reconstruction, or DER
certificate parsing, each reached with the preceding stages succeeding. -/
def stageFails (env : Env) (r : S3EventRecord) (e : String) : Prop :=
  env.pathUnescape r.s3.object.key = Except.error e ∨
  (∃ k, env.pathUnescape r.s3.object.key = Except.ok k ∧
    (env.getObject r.s3.bucket.name k = Except.error e ∨
     (∃ bs, env.getObject r.s3.bucket.name k = Except.ok bs ∧
       (env.decodeLeaf bs = Except.error e ∨
        (∃ leaf, env.decodeLeaf bs = Except.ok leaf ∧
          (env.logEntryFromLeaf leaf = Except.error e ∨
           (∃ raw, env.logEntryFromLeaf leaf = Except.ok { x509Cert := some raw } ∧
             env.parseCertificate raw = Except.error e)))))))

/-- C2: if any fatal stage (unescape, retrieval, decode, log-entry
reconstruction, DER parse) fails for a prefix-matching record, the handler
loop immediately returns that error and the webhook transport is not
invoked for that record or any record after it in the batch. -/
theorem C2_fatal_error_aborts_batch (env : Env) (url : String)
    (r : S3EventRecord) (rest : List S3EventRecord) (t : Trace) (e : String)
    (h1 : strStarts r.s3.object.key prefixVal = true)
    (hf : stageFails env r e) :
    ∃ t1, handlerLoop env url (r :: rest) t = (t1, some e) ∧
      t1.posts = t.posts := by
  rcases hf with h2 | ⟨k, h2, h3 | ⟨bs, h3, h4 | ⟨leaf, h4, h5 | ⟨raw, h5, h6⟩⟩⟩⟩
  · exact ⟨t, by simp [handlerLoop, processRecord, h1, h2], rfl⟩
  · exact ⟨(t.addFetch r.s3.bucket.name k).log "get obj err",
      by simp [handlerLoop, processRecord, h1, h2, h3],
      by simp [Trace.addFetch, Trace.log]⟩
  · exact ⟨(t.addFetch r.s3.bucket.name k).log "decode json err",
      by simp [handlerLoop, processRecord, h1, h2, h3, h4],
      by simp [Trace.addFetch, Trace.log]⟩
  · exact ⟨(t.addFetch r.s3.bucket.name k).log "load log entry leaf err",
      by simp [handlerLoop, processRecord, h1, h2, h3, h4, h5],
      by simp [Trace.addFetch, Trace.log]⟩
  · exact ⟨(t.addFetch r.s3.bucket.name k).log "x509 parse err",
      by simp [handlerLoop, processRecord, h1, h2, h3, h4, h5, h6],
      by simp [Trace.addFetch, Trace.log]⟩

/-- C2 witness: a failing JSON decode on the first record of a two-record
batch returns the decode error with no posts. -/
theorem C2_witness :
    ∃ t1, handlerLoop envDecodeErr "u"
        [⟨⟨⟨"b"⟩, ⟨"certs/a"⟩⟩⟩, ⟨⟨⟨"b"⟩, ⟨"certs/b"⟩⟩⟩] Trace.empty =
      (t1, some "bad json") ∧ t1.posts = Trace.empty.posts :=
  C2_fatal_error_aborts_batch envDecodeErr "u" ⟨⟨⟨"b"⟩, ⟨"certs/a"⟩⟩⟩
    [⟨⟨⟨"b"⟩, ⟨"certs/b"⟩⟩⟩] Trace.empty "bad json" (by decide)
    (Or.inr ⟨"certs/a", rfl, Or.inr ⟨[1], rfl, Or.inl rfl⟩⟩)

/-- C3 counterexample: the escaped key certs%2Fabc.json unescapes to
certs/abc.json, which begins with the required prefix, so under the claimed
order (unescape first, then prefix check on the unescaped key) it would be
loaded; the handler instead checks the prefix on the raw key first and skips
it, performing no fetch and no post. -/
theorem C3_counterexample :
    strStarts "certs/abc.json" prefixVal = true ∧
    envFull.pathUnescape "certs%2Fabc.json" = Except.ok "certs/abc.json" ∧
    strStarts "certs%2Fabc.json" prefixVal = false ∧
    Handler envFull ⟨[⟨⟨⟨"b"⟩, ⟨"certs%2Fabc.json"⟩⟩⟩]⟩ =
      (Trace.empty.log "skipping_file_outside_prefix", none) := by
  refine ⟨by decide, rfl, by decide, rfl⟩

/-- C3 (amended): per key, the handler first checks the required prefix on
the raw (still-escaped) key and skips (log, continue, no error) if it lacks
the prefix; only then is the key unescaped, with an unescape error ending
the record's processing with a returned error before any fetch. -/
theorem C3_amended (env : Env) (url : String) (r : S3EventRecord) (t : Trace) :
    (strStarts r.s3.object.key prefixVal = false →
      processRecord env url r t =
        (t.log "skipping_file_outside_prefix", Control.next)) ∧
    (∀ e, strStarts r.s3.object.key prefixVal = true →
      env.pathUnescape r.s3.object.key = Except.error e →
      processRecord env url r t = (t, Control.stopErr e)) := by
  constructor
  · intro h
    simp [processRecord, h]
  · intro e h1 h2
    simp [processRecord, h1, h2]

/-- C3 amended witness: the prefix-mismatching raw key other/abc.json is
skipped with no fetch and no error. -/
theorem C3_amended_witness :
    processRecord envFull "u" ⟨⟨⟨"b"⟩, ⟨"other/abc.json"⟩⟩⟩ Trace.empty =
      (Trace.empty.log "skipping_file_outside_prefix", Control.next) :=
  (C3_amended envFull "u" ⟨⟨⟨"b"⟩, ⟨"other/abc.json"⟩⟩⟩ Trace.empty).1 (by decide)

/-- C5: a record whose key lacks the required prefix is skipped: the loop
continues with the remaining records after only a log, so no fetch, no post
and no error arise from that record. -/
theorem C5_no_prefix_skips (env : Env) (url : String) (r : S3EventRecord)
    (rest : List S3EventRecord) (t : Trace)
    (h : strStarts r.s3.object.key prefixVal = false) :
    handlerLoop env url (r :: rest) t =
      handlerLoop env url rest (t.log "skipping_file_outside_prefix") ∧
    (t.log "skipping_file_outside_prefix").fetches = t.fetches ∧
    (t.log "skipping_file_outside_prefix").posts = t.posts := by
  refine ⟨?_, by simp [Trace.log], by simp [Trace.log]⟩
  simp [handlerLoop, processRecord, h]

/-- C5 witness at the §8 scenario key other/abc.json. -/
theorem C5_witness :
    handlerLoop envFull "u" [⟨⟨⟨"b"⟩, ⟨"other/abc.json"⟩⟩⟩] Trace.empty =
      handlerLoop envFull "u" [] (Trace.empty.log "skipping_file_outside_prefix") ∧
    (Trace.empty.log "skipping_file_outside_prefix").fetches = Trace.empty.fetches ∧
    (Trace.empty.log "skipping_file_outside_prefix").posts = Trace.empty.posts :=
  C5_no_prefix_skips envFull "u" ⟨⟨⟨"b"⟩, ⟨"other/abc.json"⟩⟩⟩ [] Trace.empty
    (by decide)

/-- C4: for a record whose leaf entry embeds a certificate and whose whole
pipeline succeeds, exactly one post is added, whose text is the fixed
template in which the DNS-names field is the comma-space join of the
certificate's SAN DNS entries in order and both validity timestamps are
rendered in RFC3339 format; the empty SAN list joins to the empty string. -/
theorem C4_notification_fields (env : Env) (url : String) (r : S3EventRecord)
    (t : Trace) (k : String) (bs : List Nat) (leaf : LeafEntry)
    (raw : List Nat) (cert : Certificate) (txt : String)
    (h1 : strStarts r.s3.object.key prefixVal = true)
    (h2 : env.pathUnescape r.s3.object.key = Except.ok k)
    (h3 : env.getObject r.s3.bucket.name k = Except.ok bs)
    (h4 : env.decodeLeaf bs = Except.ok leaf)
    (h5 : env.logEntryFromLeaf leaf = Except.ok { x509Cert := some raw })
    (h6 : env.parseCertificate raw = Except.ok cert)
    (h7 : env.certificateText cert = Except.ok txt) :
    (processRecord env url r t).1.posts =
      t.posts ++ [(url,
        "*New Certificate Detected*\n\n*Key:* " ++ k ++ "\n" ++
        "*DNS Names:* " ++ String.intercalate ", " cert.dnsNames ++ "\n" ++
        "*Not Before:* " ++ formatRFC3339 cert.notBefore ++ "\n" ++
        "*Not After:* " ++ formatRFC3339 cert.notAfter ++ "\n\n" ++
        "*Certificate Details:*\n```" ++ txt ++ "```")] ∧
    (processRecord env url r t).2 = Control.next ∧
    String.intercalate ", " ([] : List String) = "" := by
  cases hpost : env.postWebhook url (formatMessage k cert txt) <;>
    simp only [formatMessage] at hpost <;>
    refine ⟨?_, ?_, rfl⟩ <;>
    simp [processRecord, h1, h2, h3, h4, h5, h6, h7, hpost, formatMessage,
      Trace.addFetch, Trace.addPost, Trace.log]

/-- The record of the §8 scenario. -/
def rec8 : S3EventRecord := ⟨⟨⟨"b"⟩, ⟨"certs/abc.json"⟩⟩⟩

/-- The single-record batch of the §8 scenario. -/
def evt8 : S3Event := ⟨[rec8]⟩

/-- C4 witness at the §8 scenario environment. -/
theorem C4_witness :
    (processRecord envFull "u" rec8 Trace.empty).1.posts =
      Trace.empty.posts ++ [("u",
        "*New Certificate Detected*\n\n*Key:* " ++ "certs/abc.json" ++ "\n" ++
        "*DNS Names:* " ++ String.intercalate ", " certAB.dnsNames ++ "\n" ++
        "*Not Before:* " ++ formatRFC3339 certAB.notBefore ++ "\n" ++
        "*Not After:* " ++ formatRFC3339 certAB.notAfter ++ "\n\n" ++
        "*Certificate Details:*\n```" ++ "Certificate: data" ++ "```")] ∧
    (processRecord envFull "u" rec8 Trace.empty).2 = Control.next ∧
    String.intercalate ", " ([] : List String) = "" :=
  C4_notification_fields envFull "u" rec8 Trace.empty "certs/abc.json" [1]
    ⟨[1], []⟩ [2] certAB "Certificate: data" (by decide) rfl rfl rfl rfl rfl rfl

/-- C6: when the full pipeline for a record succeeds but the webhook post
fails, the failure is logged and the loop continues with the remaining
records; the delivery error is not returned from that record. -/
theorem C6_delivery_failure_nonfatal (env : Env) (url : String)
    (r : S3EventRecord) (rest : List S3EventRecord) (t : Trace) (k : String)
    (bs : List Nat) (leaf : LeafEntry) (raw : List Nat) (cert : Certificate)
    (txt : String) (e : String)
    (h1 : strStarts r.s3.object.key prefixVal = true)
    (h2 : env.pathUnescape r.s3.object.key = Except.ok k)
    (h3 : env.getObject r.s3.bucket.name k = Except.ok bs)
    (h4 : env.decodeLeaf bs = Except.ok leaf)
    (h5 : env.logEntryFromLeaf leaf = Except.ok { x509Cert := some raw })
    (h6 : env.parseCertificate raw = Except.ok cert)
    (h7 : env.certificateText cert = Except.ok txt)
    (h8 : env.postWebhook url (formatMessage k cert txt) = Except.error e) :
    handlerLoop env url (r :: rest) t =
      handlerLoop env url rest
        (((t.addFetch r.s3.bucket.name k).addPost url
          (formatMessage k cert txt)).log "slack_webhook_err") := by
  simp [handlerLoop, processRecord, h1, h2, h3, h4, h5, h6, h7, h8]

/-- C6 witness: a failing webhook in a one-record batch logs and continues
(so the batch ends with nil, not the delivery error). -/
theorem C6_witness :
    handlerLoop envPostErr "u" [rec8] Trace.empty =
      handlerLoop envPostErr "u" []
        (((Trace.empty.addFetch "b" "certs/abc.json").addPost "u"
          (formatMessage "certs/abc.json" certAB "Certificate: data")).log
          "slack_webhook_err") :=
  C6_delivery_failure_nonfatal envPostErr "u" rec8 [] Trace.empty
    "certs/abc.json" [1] ⟨[1], []⟩ [2] certAB "Certificate: data" "slack down"
    (by decide) rfl rfl rfl rfl rfl rfl rfl

/-- C7: when the webhook URL lookup fails, the handler logs the failure and
then runs the whole batch with the zero-value URL, so every key is still
processed and delivery is still attempted per key; the resolution error is
not the handler's result. -/
theorem C7_endpoint_resolution_nonfatal (env : Env) (evt : S3Event) (e : String)
    (hc : env.loadConfig = Except.ok ())
    (hw : env.getWebhookURL = Except.error e) :
    Handler env evt =
      handlerLoop env "" evt.records (Trace.empty.log "get_webhook_url_err") := by
  simp [Handler, hc, hw]

/-- C7 witness: with a failing URL lookup the §8 batch is still fully
processed with the empty URL. -/
theorem C7_witness :
    Handler envNoURL evt8 =
      handlerLoop envNoURL "" evt8.records (Trace.empty.log "get_webhook_url_err") :=
  C7_endpoint_resolution_nonfatal envNoURL evt8 "ssm down" rfl rfl

/-- The message the handler produces for the §8 scenario. -/
def msg8 : String :=
  "*New Certificate Detected*\n\n*Key:* certs/abc.json\n*DNS Names:* a.example.com, b.example.com\n*Not Before:* 2024-01-01T00:00:00Z\n*Not After:* 2025-01-01T00:00:00Z\n\n*Certificate Details:*\n```Certificate: data```"

/-- C8 counterexample: the §8 scenario produces exactly one notification,
but its text does not contain the literal substring
  DNS Names: a.example.com, b.example.com
because the template writes the field label as *DNS Names:* with an
asterisk between the colon and the space. -/
theorem C8_counterexample :
    (Handler envFull evt8).1.posts = [("https://hooks.example/T", msg8)] ∧
    strContains msg8 "DNS Names: a.example.com, b.example.com" = false ∧
    strContains msg8 "Not Before: 2024-01-01T00:00:00Z" = false := by
  refine ⟨rfl, by decide, by decide⟩

/-- C8 (amended): the §8 scenario produces exactly one notification whose
text contains the literal substrings
  *DNS Names:* a.example.com, b.example.com
  *Not Before:* 2024-01-01T00:00:00Z
  *Not After:* 2025-01-01T00:00:00Z -/
theorem C8_amended :
    (Handler envFull evt8).1.posts = [("https://hooks.example/T", msg8)] ∧
    strContains msg8 "*DNS Names:* a.example.com, b.example.com" = true ∧
    strContains msg8 "*Not Before:* 2024-01-01T00:00:00Z" = true ∧
    strContains msg8 "*Not After:* 2025-01-01T00:00:00Z" = true := by
  refine ⟨rfl, by decide, by decide, by decide⟩

/-- C9: the extract-and-format pipeline is deterministic: two runs on the
same leaf entry and key that produce notification text produce the same
text. -/
theorem C9_deterministic (env : Env) (key : String) (leaf : LeafEntry)
    (m1 m2 : String)
    (h1 : extractFormat env key leaf = Except.ok (some m1))
    (h2 : extractFormat env key leaf = Except.ok (some m2)) : m1 = m2 := by
  rw [h1] at h2
  exact Option.some.inj (Except.ok.inj h2)

/-- C9 witness: the §8 scenario pipeline evaluates to msg8 and two runs
agree. -/
theorem C9_witness :
    extractFormat envFull "certs/abc.json" ⟨[1], []⟩ = Except.ok (some msg8) ∧
    msg8 = msg8 :=
  ⟨rfl, C9_deterministic envFull "certs/abc.json" ⟨[1], []⟩ msg8 msg8 rfl rfl⟩
